import Mathlib

/-!
Shallow embedding of the background-removal video filter
(src/background-filter.cpp): the per-frame segmentation pipeline of an
OBS filter built on ONNX Runtime and OpenCV.  Pure logic of the source
is translated directly; the external capabilities it consumes
(the ONNX session, OpenCV's findContours / drawContours / resize /
boxFilter, and the media-io video scaler) are opaque to the repository
and are represented abstractly (as function-valued parameters or
instance identifiers), exactly as the source treats them.
-/

namespace BackgroundRemoval

/-- Constant MODEL_SINET (source line 54): file name of the SINet model,
used both as the settings value and for the strcmp-based model branch. -/
def MODEL_SINET : String := "SINet_Softmax_simple.onnx"

/-- Constant MODEL_MODNET (source line 55): file name of the MODNet model. -/
def MODEL_MODNET : String := "modnet_simple.onnx"

/-- One pixel of the intermediate packed 8-bit 3-channel (BGR) image. -/
abbrev Pixel : Type := ℕ × ℕ × ℕ

/-- C-style integer cast of a floating value, truncation toward zero:
floor for nonnegative arguments and ceiling for negative ones.  Embeds the
casts at source lines 405 (int64_t) and 420 (int). -/
def cIntCast (q : ℚ) : ℤ := if q < 0 then ⌈q⌉ else ⌊q⌋

/-- One connected region of the binary mask, identified with its outer
contour; area is the value cv::contourArea returns for that contour
(a possibly fractional number, external to the repository). -/
structure Region where
  area : ℚ
deriving DecidableEq

/-- The native-scale binary mask as seen by the contour-processing block
(source lines 400-413): its pixel count (backgroundMask.total()) and the
connected regions findContours retrieves with RETR_EXTERNAL.  A mask value
of this type is always of the redrawn, filled-solid form, so the regions
determine it. -/
structure NativeMask where
  total : ℕ
  regions : List Region
deriving DecidableEq

/-- contourSizeThreshold (source line 405):
(int64_t)(backgroundMask.total() * tf->contourFilter). -/
def contourSizeThreshold (total : ℕ) (cf : ℚ) : ℤ :=
  cIntCast ((total : ℚ) * cf)

/-- Body of the contour-processing block (source lines 402-412): keep
exactly the contours whose area exceeds contourSizeThreshold, zero the
mask and redraw the survivors filled solid. -/
def contourFilterStep (cf : ℚ) (m : NativeMask) : NativeMask :=
  { total := m.total
    regions := m.regions.filter
      (fun c => decide ((contourSizeThreshold m.total cf : ℚ) < c.area)) }

/-- The guarded contour-processing block (source line 401): the body runs
only when 0 < contourFilter < 1, otherwise the mask passes through. -/
def contourBranchNative (cf : ℚ) (m : NativeMask) : NativeMask :=
  if 0 < cf ∧ cf < 1 then contourFilterStep cf m else m

/-- The opaque OpenCV image operations the render path calls on masks:
findContours + contourArea (findRegions), drawContours on a zeroed mask
(drawRegions, given the pixel count of the mask), cv::resize of a mask to
the frame size (resizeMask), and cv::boxFilter with a square kernel of
the given size (boxBlur).  Their implementations live outside the
repository; the pipeline is parametric in them. -/
structure ImageOps where
  findRegions : List ℕ → List Region
  drawRegions : List Region → ℕ → List ℕ
  resizeMask : List ℕ → ℕ × ℕ → List ℕ
  boxBlur : ℤ → List ℕ → List ℕ

/-- Thresholding of the network output (source lines 393-398): for SINet
the mask is outputImage > threshold, for every other model selection it is
outputImage < threshold; an OpenCV comparison writes 255 where the
comparison holds and 0 elsewhere.  The resulting nonzero pixels are the
ones later replaced by the background color. -/
def thresholdMask (modelSelection : String) (threshold : ℚ)
    (output : List ℚ) : List ℕ :=
  if modelSelection = MODEL_SINET then
    output.map (fun v => if threshold < v then 255 else 0)
  else
    output.map (fun v => if v < threshold then 255 else 0)

/-- The contour-processing block at pixel level (source lines 400-413),
parametric in the opaque OpenCV routines: when 0 < contourFilter < 1,
find the regions, keep those whose area exceeds contourSizeThreshold
(computed from the pixel count of the mask), and redraw only the
survivors on a zeroed mask. -/
def contourBranch (ops : ImageOps) (cf : ℚ) (mask : List ℕ) : List ℕ :=
  if 0 < cf ∧ cf < 1 then
    let contours := ops.findRegions mask
    let filteredContours := contours.filter
      (fun c => decide ((contourSizeThreshold mask.length cf : ℚ) < c.area))
    ops.drawRegions filteredContours mask.length
  else mask

/-- k_size (source line 420): (int)(100 * tf->smoothContour). -/
def smoothKernelSize (sc : ℚ) : ℤ := cIntCast (100 * sc)

/-- The smoothing block (source lines 419-423): when smoothContour > 0,
box-blur the frame-scale mask with kernel size smoothKernelSize and
re-binarize with backgroundMask > 128 (255 where the comparison holds,
0 elsewhere). -/
def smoothBranch (ops : ImageOps) (sc : ℚ) (mask : List ℕ) : List ℕ :=
  if 0 < sc then
    (ops.boxBlur (smoothKernelSize sc) mask).map
      (fun v => if 128 < v then 255 else 0)
  else mask

/-- Mask postprocessing of one frame (source lines 400-423): the guarded
contour block, then the unconditional resize to the frame size, then the
guarded smoothing block. -/
def maskPipeline (ops : ImageOps) (cf sc : ℚ) (frameSize : ℕ × ℕ)
    (mask : List ℕ) : List ℕ :=
  smoothBranch ops sc (ops.resizeMask (contourBranch ops cf mask) frameSize)

/-- Compositing (source line 425): imageBGR.setTo(backgroundColor,
backgroundMask) overwrites each pixel whose mask value is nonzero with
the background color and leaves the others untouched. -/
def setToMasked (img : List Pixel) (color : Pixel) (mask : List ℕ) :
    List Pixel :=
  List.zipWith (fun p mv => if mv ≠ 0 then color else p) img mask

/-- One media-io video scaler instance as the filter sees it: an opaque
handle (id) plus the geometry it was created with (source lines 284-312:
both scalers are created from the current frame's width, height and
format). -/
structure Scaler where
  id : ℕ
  width : ℕ
  height : ℕ
  format : ℕ
deriving DecidableEq

/-- The geometry-bearing part of an obs_source_frame. -/
structure Frame where
  width : ℕ
  height : ℕ
  format : ℕ
deriving DecidableEq

/-- The obs_data settings consumed by filter_update (source lines
246-266), with the keys of the property schema. -/
structure Settings where
  threshold : ℚ
  replaceColor : ℕ
  contour_filter : ℚ
  smooth_contour : ℚ
  useGPU : Bool
  model_select : String
deriving DecidableEq

/-- Outcomes of the two external calls inside createOrtSession that can
fail (source lines 160-189): whether obs_module_file resolves the model
path to a non-null string, and whether the Ort Session constructor
returns without throwing. -/
structure OrtLoadEnv where
  fileResolves : Bool
  ctorSucceeds : Bool
deriving DecidableEq

/-- The mutable filter struct background_removal_filter (source lines
24-52), restricted to the fields the verified claims observe.  The
session and the two scalers are opaque instances, represented by
Option-wrapped identifiers so that absence (nullptr) and instance
identity are observable; nextId is the supply of fresh instance
identifiers.  The tensor buffers and cached shape vectors are not
modelled (no claim observes them). -/
structure FilterState where
  session : Option ℕ
  threshold : ℚ
  backgroundColor : Pixel
  contourFilter : ℚ
  smoothContour : ℚ
  useGPU : Bool
  modelSelection : String
  scalerToBGR : Option Scaler
  scalerFromBGR : Option Scaler
  nextId : ℕ
deriving DecidableEq

/-- destroyScalers (source lines 233-243): release both scalers and null
the pointers. -/
def destroyScalers (tf : FilterState) : FilterState :=
  { tf with scalerToBGR := none, scalerFromBGR := none }

/-- createOrtSession (source lines 150-230): if the model path does not
resolve, return early (the session pointer is left exactly as it was);
if the session constructor throws, the catch block returns early
likewise; otherwise session.reset(new Ort::Session(...)) installs a
fresh session instance. -/
def createOrtSession (env : OrtLoadEnv) (tf : FilterState) : FilterState :=
  if env.fileResolves = true then
    if env.ctorSucceeds = true then
      { tf with session := some tf.nextId, nextId := tf.nextId + 1 }
    else tf
  else tf

/-- filter_update (source lines 246-266): copy every configuration value
out of the settings (the background color is unpacked from the 24-bit
integer as blue = low byte, green = middle byte, red = high byte), then
unconditionally destroy both scalers and recreate the session. -/
def filter_update (st : Settings) (env : OrtLoadEnv) (tf : FilterState) :
    FilterState :=
  let tf1 : FilterState := { tf with
    threshold := st.threshold
    backgroundColor :=
      (st.replaceColor % 256, st.replaceColor / 256 % 256,
        st.replaceColor / 65536 % 256)
    contourFilter := st.contour_filter
    smoothContour := st.smooth_contour
    useGPU := st.useGPU
    modelSelection := st.model_select }
  createOrtSession env (destroyScalers tf1)

/-- The zero-initialized filter struct produced by bzalloc in
filter_create (source line 273): null session, null scalers. -/
def initialState : FilterState :=
  { session := none
    threshold := 0
    backgroundColor := (0, 0, 0)
    contourFilter := 0
    smoothContour := 0
    useGPU := false
    modelSelection := ""
    scalerToBGR := none
    scalerFromBGR := none
    nextId := 0 }

/-- filter_create (source lines 271-281): allocate the zeroed struct and
run filter_update on the initial settings. -/
def filter_create (st : Settings) (env : OrtLoadEnv) : FilterState :=
  filter_update st env initialState

/-- initializeScalers (source lines 284-312): destroy whatever scalers
exist, then create both directional scalers from the frame's width,
height and pixel format. -/
def initializeScalers (width height format : ℕ) (tf : FilterState) :
    FilterState :=
  let tf1 := destroyScalers tf
  { tf1 with
    scalerToBGR := some
      { id := tf1.nextId, width := width, height := height, format := format }
    scalerFromBGR := some
      { id := tf1.nextId + 1, width := width, height := height,
        format := format }
    nextId := tf1.nextId + 2 }

/-- convertFrameToBGR (source lines 315-331): the scalers are initialized
lazily exactly when scalerToBGR is null; the conversion then goes through
whatever scaler instance tf->scalerToBGR holds.  The returned pair is the
updated state and the scaler instance the video_scaler_scale call uses. -/
def convertFrameToBGR (frame : Frame) (tf : FilterState) :
    FilterState × Option Scaler :=
  if tf.scalerToBGR = none then
    let tf1 := initializeScalers frame.width frame.height frame.format tf
    (tf1, tf1.scalerToBGR)
  else (tf, tf.scalerToBGR)

/-- Outcome of one filter_render call: either the processed BGR pixel
data written back onto the frame, or the undefined behavior of running
tf->session->Run through an absent (null) session. -/
inductive RenderOutcome where
  | output (pixels : List Pixel)
  | nullDeref
deriving DecidableEq

/-- filter_render (source lines 349-430), at the granularity of the mask
claims: the source calls tf->session->Run with no absence check, so a
null session is a null dereference; otherwise the output tensor is
thresholded per model, postprocessed by maskPipeline, and composited onto
the image.  Color conversion and preprocessing feed the opaque inference
call, abstracted here as infer from the BGR image already obtained. -/
def filter_render (ops : ImageOps) (infer : List Pixel → List ℚ)
    (tf : FilterState) (frameSize : ℕ × ℕ) (imageBGR : List Pixel) :
    RenderOutcome :=
  match tf.session with
  | none => RenderOutcome.nullDeref
  | some _ =>
    let out := infer imageBGR
    let mask := maskPipeline ops tf.contourFilter tf.smoothContour frameSize
      (thresholdMask tf.modelSelection tf.threshold out)
    RenderOutcome.output (setToMasked imageBGR tf.backgroundColor mask)

/-- cv::Size as used at source line 362: the first constructor argument
is the width, the second the height. -/
structure CvSize where
  width : ℕ
  height : ℕ
deriving DecidableEq

/-- Row/column extent of a cv::Mat. -/
structure MatShape where
  rows : ℕ
  cols : ℕ
deriving DecidableEq

/-- The resize target of source line 362:
cv::Size((int)tf->inputDims.at(2), (int)tf->inputDims.at(3)). -/
def resizeTargetSize (inputDims : List ℕ) : CvSize :=
  { width := inputDims.getD 2 0, height := inputDims.getD 3 0 }

/-- Shape of the image cv::resize produces for that target: a cv::Mat
resized to cv::Size s has s.height rows and s.width columns. -/
def resizedShape (inputDims : List ℕ) : MatShape :=
  { rows := (resizeTargetSize inputDims).height
    cols := (resizeTargetSize inputDims).width }

/-- A trivial instantiation of the opaque image operations, used to
evaluate the parametric pipeline on concrete inputs. -/
def idOps : ImageOps :=
  { findRegions := fun _ => []
    drawRegions := fun _ n => List.replicate n 0
    resizeMask := fun m _ => m
    boxBlur := fun _ m => m }

/-- Concrete settings pointing at the SINet model. -/
def c1settings : Settings :=
  { threshold := 0
    replaceColor := 0
    contour_filter := 0
    smooth_contour := 0
    useGPU := false
    model_select := MODEL_SINET }

/-- Concrete filter state with a live session (id 0) and both scalers
built (ids 1 and 2) for 64 x 64 frames in pixel format 0; the
configuration has threshold 0. -/
def c3state : FilterState :=
  { session := some 0
    threshold := 0
    backgroundColor := (0, 0, 0)
    contourFilter := 0
    smoothContour := 0
    useGPU := false
    modelSelection := MODEL_SINET
    scalerToBGR := some { id := 1, width := 64, height := 64, format := 0 }
    scalerFromBGR := some { id := 2, width := 64, height := 64, format := 0 }
    nextId := 3 }

/-- Settings identical to the configuration of c3state except for the
threshold (0 changed to 1). -/
def c3settings : Settings :=
  { threshold := 1
    replaceColor := 0
    contour_filter := 0
    smooth_contour := 0
    useGPU := false
    model_select := MODEL_SINET }

/-- Concrete filter state whose scalers (ids 5 and 6) were built for
2 x 2 frames. -/
def c4state : FilterState :=
  { session := some 0
    threshold := 0
    backgroundColor := (0, 0, 0)
    contourFilter := 0
    smoothContour := 0
    useGPU := false
    modelSelection := MODEL_SINET
    scalerToBGR := some { id := 5, width := 2, height := 2, format := 0 }
    scalerFromBGR := some { id := 6, width := 2, height := 2, format := 0 }
    nextId := 7 }

/-- Concrete filter state with no scalers built. -/
def c4none : FilterState :=
  { session := some 0
    threshold := 0
    backgroundColor := (0, 0, 0)
    contourFilter := 0
    smoothContour := 0
    useGPU := false
    modelSelection := MODEL_SINET
    scalerToBGR := none
    scalerFromBGR := none
    nextId := 7 }

/-- Filtering a list twice with the same predicate equals filtering once. -/
theorem filter_twice {α : Type} (p : α → Bool) (l : List α) :
    List.filter p (List.filter p l) = List.filter p l := by
  induction l with
  | nil => rfl
  | cons a t ih =>
    by_cases h : p a = true
    · simp [List.filter_cons, h, ih]
    · simp [List.filter_cons, h, ih]

/-- contourFilterStep applied twice with one contourFilter value is one
application: the pixel count is preserved, so the threshold is unchanged,
and filtering the surviving regions again keeps all of them. -/
theorem contourFilterStep_idem (cf : ℚ) (m : NativeMask) :
    contourFilterStep cf (contourFilterStep cf m) = contourFilterStep cf m := by
  cases m with
  | mk total regions =>
    simp only [contourFilterStep]
    rw [filter_twice]

/-- Thresholding under the SINet model selection takes the strcmp branch
with the greater-than comparison. -/
theorem thresholdMask_sinet (thr : ℚ) (out : List ℚ) :
    thresholdMask MODEL_SINET thr out =
      out.map (fun v => if thr < v then (255 : ℕ) else 0) := by
  unfold thresholdMask
  rw [if_pos rfl]

/-- Thresholding under the MODNet model selection takes the else branch
with the less-than comparison. -/
theorem thresholdMask_modnet (thr : ℚ) (out : List ℚ) :
    thresholdMask MODEL_MODNET thr out =
      out.map (fun v => if v < thr then (255 : ℕ) else 0) := by
  unfold thresholdMask
  rw [if_neg (by decide)]

/-- An all-zero output compared with greater-than against a positive
threshold yields the all-zero mask. -/
theorem threshMap_all_zero_high (thr : ℚ) (hthr : 0 < thr) :
    ∀ out : List ℚ, (∀ v ∈ out, v = 0) →
      out.map (fun v => if thr < v then (255 : ℕ) else 0) =
        List.replicate out.length 0 := by
  intro out
  induction out with
  | nil => intro _; rfl
  | cons v t ih =>
    intro h
    have hv : v = 0 := h v (List.mem_cons_self v t)
    have ht := ih (fun w hw => h w (List.mem_cons_of_mem v hw))
    rw [List.map_cons, hv, ht, if_neg (not_lt.mpr hthr.le),
      List.length_cons, List.replicate_succ]

/-- An all-zero output compared with less-than against a positive
threshold yields the all-255 mask. -/
theorem threshMap_all_zero_low (thr : ℚ) (hthr : 0 < thr) :
    ∀ out : List ℚ, (∀ v ∈ out, v = 0) →
      out.map (fun v => if v < thr then (255 : ℕ) else 0) =
        List.replicate out.length 255 := by
  intro out
  induction out with
  | nil => intro _; rfl
  | cons v t ih =>
    intro h
    have hv : v = 0 := h v (List.mem_cons_self v t)
    have ht := ih (fun w hw => h w (List.mem_cons_of_mem v hw))
    rw [List.map_cons, hv, ht, if_pos hthr, List.length_cons,
      List.replicate_succ]

/-- Compositing with the all-zero mask replaces no pixel. -/
theorem setToMasked_replicate_zero (color : Pixel) :
    ∀ img : List Pixel,
      setToMasked img color (List.replicate img.length 0) = img := by
  intro img
  induction img with
  | nil => rfl
  | cons p t ih =>
    show (if (0 : ℕ) ≠ 0 then color else p) ::
        setToMasked t color (List.replicate t.length 0) = p :: t
    rw [if_neg (by decide), ih]

/-- Compositing with the all-255 mask replaces every pixel with the
background color. -/
theorem setToMasked_replicate_255 (color : Pixel) :
    ∀ img : List Pixel,
      setToMasked img color (List.replicate img.length 255) =
        img.map (fun _ => color) := by
  intro img
  induction img with
  | nil => rfl
  | cons p t ih =>
    show (if (255 : ℕ) ≠ 0 then color else p) ::
        setToMasked t color (List.replicate t.length 255) =
          color :: t.map (fun _ => color)
    rw [if_pos (by decide), ih]

/-- Claim C2 counterexample: with the all-zero output tensor and
threshold 1/2 > 0, the Model A (SINet) composite leaves the pixel
untouched instead of replacing every pixel with the background color,
and the Model B (MODNet) composite replaces it, the exact opposite of
the claimed polarity. -/
theorem C2_counterexample :
    setToMasked [(1, 2, 3)] (7, 7, 7)
        (thresholdMask MODEL_SINET 1 [0]) = [(1, 2, 3)] ∧
    ((1, 2, 3) : Pixel) ≠ (7, 7, 7) ∧
    setToMasked [(1, 2, 3)] (7, 7, 7)
        (thresholdMask MODEL_MODNET 1 [0]) = [(7, 7, 7)] := by
  decide

/-- Claim C2 (corrected): the pixels replaced by the background color
are those with output > threshold under Model A (SINet) and those with
output < threshold under Model B (MODNet); hence an all-zero output
tensor with threshold > 0 leaves every pixel untouched (all-foreground)
under Model A and replaces every pixel (all-background) under Model B. -/
theorem C2_thm (thr : ℚ) (out : List ℚ) (img : List Pixel) (color : Pixel)
    (hthr : 0 < thr) (hzero : ∀ v ∈ out, v = 0)
    (hlen : out.length = img.length) :
    setToMasked img color (thresholdMask MODEL_SINET thr out) = img ∧
    setToMasked img color (thresholdMask MODEL_MODNET thr out) =
      img.map (fun _ => color) := by
  constructor
  · rw [thresholdMask_sinet, threshMap_all_zero_high thr hthr out hzero,
      hlen, setToMasked_replicate_zero]
  · rw [thresholdMask_modnet, threshMap_all_zero_low thr hthr out hzero,
      hlen, setToMasked_replicate_255]

/-- Witness for C2_thm at a concrete two-pixel frame. -/
theorem C2_witness :
    (0 : ℚ) < 1 ∧
    (setToMasked [(1, 2, 3), (4, 5, 6)] (9, 9, 9)
        (thresholdMask MODEL_SINET 1 [0, 0]) = [(1, 2, 3), (4, 5, 6)] ∧
     setToMasked [(1, 2, 3), (4, 5, 6)] (9, 9, 9)
        (thresholdMask MODEL_MODNET 1 [0, 0]) = [(9, 9, 9), (9, 9, 9)]) :=
  ⟨by decide,
    C2_thm 1 [0, 0] [(1, 2, 3), (4, 5, 6)] (9, 9, 9) (by decide)
      (by decide) (by decide)⟩

/-- Claim C6 counterexample: with 100 mask pixels and contourFilter
31/200 the claimed area threshold is 100 * 31/200 = 31/2; a region of
contour area 31/2 is at (not above) that threshold, so the claim says it
is discarded, yet the code keeps it, because the comparison is taken
against the integer truncation (int64_t)(15.5) = 15. -/
theorem C6_counterexample :
    Region.mk (31/2) ∈
      (contourBranchNative (31/200)
        (NativeMask.mk 100 [Region.mk (31/2)])).regions ∧
    ¬ ((100 : ℚ) * (31/200) < 31/2) := by
  constructor
  · have hthr : contourSizeThreshold 100 (31/200) = 15 := by
      unfold contourSizeThreshold cIntCast
      rw [if_neg (by norm_num)]
      rw [Int.floor_eq_iff]
      norm_num
    unfold contourBranchNative
    rw [if_pos (by norm_num)]
    unfold contourFilterStep
    rw [List.mem_filter]
    refine ⟨List.mem_cons_self _ _, ?_⟩
    rw [hthr]
    norm_num
  · norm_num

/-- Claim C6 (corrected): when 0 < contourFilter < 1, the area threshold
is the integer truncation (int64_t)(totalMaskPixels * contourFilter); a
region survives (is redrawn filled solid) exactly when its contour area
is strictly above that truncated threshold, and every region at or below
it is discarded. -/
theorem C6_thm (cf : ℚ) (m : NativeMask) (h1 : 0 < cf) (h2 : cf < 1) :
    (contourBranchNative cf m).total = m.total ∧
    ∀ r, r ∈ (contourBranchNative cf m).regions ↔
      r ∈ m.regions ∧ ((contourSizeThreshold m.total cf : ℚ) < r.area) := by
  unfold contourBranchNative
  rw [if_pos ⟨h1, h2⟩]
  refine ⟨rfl, ?_⟩
  intro r
  unfold contourFilterStep
  simp [List.mem_filter]

/-- Witness for C6_thm: 4 mask pixels, contourFilter 1/2, regions of
area 3 (kept) and 1 (discarded). -/
theorem C6_witness :
    ((0 : ℚ) < 1/2 ∧ (1 : ℚ)/2 < 1) ∧
    ((contourBranchNative (1/2)
        (NativeMask.mk 4 [Region.mk 3, Region.mk 1])).total = 4 ∧
     ∀ r, r ∈ (contourBranchNative (1/2)
        (NativeMask.mk 4 [Region.mk 3, Region.mk 1])).regions ↔
       r ∈ [Region.mk 3, Region.mk 1] ∧
         ((contourSizeThreshold 4 (1/2) : ℚ) < r.area)) :=
  ⟨⟨by norm_num, by norm_num⟩,
    C6_thm (1/2) (NativeMask.mk 4 [Region.mk 3, Region.mk 1])
      (by norm_num) (by norm_num)⟩

/-- Claim C9: contour-area filtering is idempotent for every
contourFilter in (0,1): re-running the guarded contour block on its own
output yields the identical mask. -/
theorem C9_thm (cf : ℚ) (m : NativeMask) (h1 : 0 < cf) (h2 : cf < 1) :
    contourBranchNative cf (contourBranchNative cf m) =
      contourBranchNative cf m := by
  have hc : 0 < cf ∧ cf < 1 := ⟨h1, h2⟩
  simp only [contourBranchNative, if_pos hc]
  exact contourFilterStep_idem cf m

/-- Witness for C9_thm at a concrete mask. -/
theorem C9_witness :
    ((0 : ℚ) < 1/4 ∧ (1 : ℚ)/4 < 1) ∧
    contourBranchNative (1/4)
        (contourBranchNative (1/4)
          (NativeMask.mk 9 [Region.mk 5, Region.mk 2])) =
      contourBranchNative (1/4)
        (NativeMask.mk 9 [Region.mk 5, Region.mk 2]) :=
  ⟨⟨by norm_num, by norm_num⟩,
    C9_thm (1/4) (NativeMask.mk 9 [Region.mk 5, Region.mk 2])
      (by norm_num) (by norm_num)⟩

/-- Claim C1 (code bug, demonstrated): creating the filter with a model
path that does not resolve leaves the session absent, and the very next
render call dereferences that absent session (the source runs
tf->session->Run with no absence check) instead of returning the input
frame unmodified as the claim requires. -/
theorem C1_code_behavior :
    (filter_create c1settings
        { fileResolves := false, ctorSucceeds := true }).session = none ∧
    filter_render idOps (fun _ => [0])
        (filter_create c1settings
          { fileResolves := false, ctorSucceeds := true })
        (1, 1) [(0, 0, 0)] = RenderOutcome.nullDeref :=
  ⟨rfl, rfl⟩

/-- Claim C3 counterexample: an update whose settings agree with the
current configuration on every field except the threshold still destroys
both scalers and installs a new session instance. -/
theorem C3_counterexample :
    (c3settings.threshold ≠ c3state.threshold ∧
     c3settings.contour_filter = c3state.contourFilter ∧
     c3settings.smooth_contour = c3state.smoothContour ∧
     c3settings.useGPU = c3state.useGPU ∧
     c3settings.model_select = c3state.modelSelection ∧
     (c3settings.replaceColor % 256, c3settings.replaceColor / 256 % 256,
       c3settings.replaceColor / 65536 % 256) = c3state.backgroundColor) ∧
    (filter_update c3settings { fileResolves := true, ctorSucceeds := true }
        c3state).scalerToBGR = none ∧
    (filter_update c3settings { fileResolves := true, ctorSucceeds := true }
        c3state).scalerFromBGR = none ∧
    (filter_update c3settings { fileResolves := true, ctorSucceeds := true }
        c3state).session ≠ c3state.session := by
  decide

/-- Claim C3 (corrected): every settings update, including one that
changes only the threshold, destroys both colorspace converters (leaving
them absent until the next render lazily rebuilds them) and reloads the
inference session; when the load succeeds the session is a fresh
instance, distinct from the previous one. -/
theorem C3_thm (st : Settings) (env : OrtLoadEnv) (tf : FilterState)
    (hfile : env.fileResolves = true) (hctor : env.ctorSucceeds = true)
    (hfresh : tf.session ≠ some tf.nextId) :
    (filter_update st env tf).scalerToBGR = none ∧
    (filter_update st env tf).scalerFromBGR = none ∧
    (filter_update st env tf).session = some tf.nextId ∧
    (filter_update st env tf).session ≠ tf.session := by
  refine ⟨?_, ?_, ?_, ?_⟩ <;>
    simp [filter_update, createOrtSession, destroyScalers, hfile, hctor]
  exact fun h => hfresh h.symm

/-- Witness for C3_thm at the threshold-only update of
C3_counterexample. -/
theorem C3_witness :
    c3state.session ≠ some c3state.nextId ∧
    ((filter_update c3settings { fileResolves := true, ctorSucceeds := true }
        c3state).scalerToBGR = none ∧
     (filter_update c3settings { fileResolves := true, ctorSucceeds := true }
        c3state).scalerFromBGR = none ∧
     (filter_update c3settings { fileResolves := true, ctorSucceeds := true }
        c3state).session = some 3 ∧
     (filter_update c3settings { fileResolves := true, ctorSucceeds := true }
        c3state).session ≠ some 0) :=
  ⟨by decide,
    C3_thm c3settings { fileResolves := true, ctorSucceeds := true } c3state
      rfl rfl (by decide)⟩

/-- Claim C4 counterexample: a state whose converter was built for 2 x 2
frames receives a 4 x 4 frame; convertFrameToBGR performs no
re-initialization (the state is returned unchanged) and the conversion
goes through the converter built for the old geometry. -/
theorem C4_counterexample :
    (convertFrameToBGR { width := 4, height := 4, format := 0 } c4state).2 =
      some { id := 5, width := 2, height := 2, format := 0 } ∧
    ({ id := 5, width := 2, height := 2, format := 0 } : Scaler).width ≠
      ({ width := 4, height := 4, format := 0 } : Frame).width ∧
    (convertFrameToBGR { width := 4, height := 4, format := 0 } c4state).1 =
      c4state := by
  decide

/-- Claim C4 (corrected): the converters are (re)initialized lazily only
when they are absent (null, i.e. after an update destroyed them); when a
converter instance exists it is used unconditionally, so a frame whose
geometry differs from the geometry the converter was built with is still
converted through that stale converter.  When the converter is absent,
both converters are built from the incoming frame's geometry and the
fresh instance is the one used. -/
theorem C4_thm (frame : Frame) (tf : FilterState) :
    (tf.scalerToBGR = none →
      convertFrameToBGR frame tf =
        (initializeScalers frame.width frame.height frame.format tf,
          some { id := tf.nextId, width := frame.width,
                 height := frame.height, format := frame.format })) ∧
    ∀ sc, tf.scalerToBGR = some sc →
      convertFrameToBGR frame tf = (tf, some sc) := by
  constructor
  · intro h
    unfold convertFrameToBGR
    rw [if_pos h]
    rfl
  · intro sc h
    unfold convertFrameToBGR
    rw [if_neg (by rw [h]; exact fun hc => Option.noConfusion hc), h]

/-- Witness for C4_thm: the stale-converter case on c4state and the
lazy-initialization case on c4none, both with a 4 x 4 frame. -/
theorem C4_witness :
    (convertFrameToBGR { width := 4, height := 4, format := 0 } c4state =
      (c4state, some { id := 5, width := 2, height := 2, format := 0 })) ∧
    (convertFrameToBGR { width := 4, height := 4, format := 0 } c4none =
      (initializeScalers 4 4 0 c4none,
        some { id := 7, width := 4, height := 4, format := 0 })) :=
  ⟨(C4_thm { width := 4, height := 4, format := 0 } c4state).2
      { id := 5, width := 2, height := 2, format := 0 } rfl,
    (C4_thm { width := 4, height := 4, format := 0 } c4none).1 rfl⟩

/-- Claim C5 (code bug, demonstrated): for a model with NCHW input shape
[1, 3, 2, 4] (declared height inputDims[2] = 2, width inputDims[3] = 4),
the resize target cv::Size(inputDims.at(2), inputDims.at(3)) of source
line 362 sets the width to the declared height and vice versa, so the
resized image has 4 rows and 2 columns, not the 2 rows and 4 columns the
claim requires. -/
theorem C5_code_behavior :
    resizedShape [1, 3, 2, 4] = { rows := 4, cols := 2 } ∧
    resizedShape [1, 3, 2, 4] ≠ { rows := 2, cols := 4 } := by
  decide

/-- Claim C7: with contourFilter = 0 and smoothContour = 0 both the
contour block and the smoothing block are skipped, and the mask
postprocessing yields exactly the raw thresholded mask resized to the
frame size, for every model selection, threshold, output tensor, frame
size and instantiation of the opaque image operations. -/
theorem C7_thm (ops : ImageOps) (msel : String) (thr : ℚ) (out : List ℚ)
    (fs : ℕ × ℕ) :
    maskPipeline ops 0 0 fs (thresholdMask msel thr out) =
      ops.resizeMask (thresholdMask msel thr out) fs := by
  have h1 : ¬ ((0 : ℚ) < 0 ∧ (0 : ℚ) < 1) := by norm_num
  have h2 : ¬ ((0 : ℚ) < 0) := by norm_num
  unfold maskPipeline contourBranch smoothBranch
  rw [if_neg h1, if_neg h2]

/-- Claim C8: when smoothContour > 0 the smoothing block applies the box
blur with the integer kernel size (int)(100 * smoothContour) and
re-binarizes against the fixed cutoff 128, so every pixel of the
resulting mask is either 0 or 255. -/
theorem C8_thm (ops : ImageOps) (sc : ℚ) (mask : List ℕ) (hsc : 0 < sc) :
    smoothBranch ops sc mask =
      (ops.boxBlur (smoothKernelSize sc) mask).map
        (fun v => if 128 < v then 255 else 0) ∧
    ∀ v ∈ smoothBranch ops sc mask, v = 0 ∨ v = 255 := by
  constructor
  · unfold smoothBranch
    rw [if_pos hsc]
  · unfold smoothBranch
    rw [if_pos hsc]
    intro v hv
    rw [List.mem_map] at hv
    obtain ⟨w, _, hval⟩ := hv
    by_cases h : 128 < w
    · right
      rw [← hval, if_pos h]
    · left
      rw [← hval, if_neg h]

/-- Witness for C8_thm at smoothContour = 1/2 and a concrete mask. -/
theorem C8_witness :
    (0 : ℚ) < 1/2 ∧
    (smoothBranch idOps (1/2) [200, 5] =
      (idOps.boxBlur (smoothKernelSize (1/2)) [200, 5]).map
        (fun v => if 128 < v then 255 else 0) ∧
     ∀ v ∈ smoothBranch idOps (1/2) [200, 5], v = 0 ∨ v = 255) :=
  ⟨by norm_num, C8_thm idOps (1/2) [200, 5] (by norm_num)⟩

/-- Claim C10: for every smoothContour with 0 < smoothContour < 1/100,
the smoothing branch is taken (its enable condition holds) while the
integer kernel size (int)(100 * smoothContour) truncates to 0, so the
box filter is invoked with a zero-size kernel. -/
theorem C10_thm (ops : ImageOps) (sc : ℚ) (mask : List ℕ)
    (h1 : 0 < sc) (h2 : sc < 1/100) :
    smoothKernelSize sc = 0 ∧
    smoothBranch ops sc mask =
      (ops.boxBlur 0 mask).map (fun v => if 128 < v then 255 else 0) := by
  have hk : smoothKernelSize sc = 0 := by
    unfold smoothKernelSize cIntCast
    rw [if_neg (by linarith : ¬ (100 * sc < 0))]
    rw [Int.floor_eq_zero_iff, Set.mem_Ico]
    constructor
    · linarith
    · linarith
  refine ⟨hk, ?_⟩
  unfold smoothBranch
  rw [if_pos h1, hk]

/-- Witness for C10_thm at smoothContour = 1/200. -/
theorem C10_witness :
    ((0 : ℚ) < 1/200 ∧ (1 : ℚ)/200 < 1/100) ∧
    (smoothKernelSize (1/200) = 0 ∧
     smoothBranch idOps (1/200) [200, 5] =
       (idOps.boxBlur 0 [200, 5]).map
         (fun v => if 128 < v then 255 else 0)) :=
  ⟨⟨by norm_num, by norm_num⟩,
    C10_thm idOps (1/200) [200, 5] (by norm_num) (by norm_num)⟩

end BackgroundRemoval
